import Mathlib

/-!
Verification of the clockout attendance backend core
(`src/backend/app/routes/events.py`, `attendance.py`, `reports.py`)
against its natural-language specification.

Shallow embedding conventions:
* timestamps are UTC instants in whole seconds since an epoch (`Int`);
  `tsDate` mirrors SQL `func.date(...)` (the UTC calendar day) and
  `timeOfDay` the `datetime.time()` projection, in seconds;
* GPS coordinates, radii, hours and `Decimal`/float amounts are `ℚ`;
* nullable columns are `Option`;
* the transcendental Haversine `calculate_distance` (IEEE-double `sin`,
  `cos`, `atan2`) is abstracted as an explicit function parameter of type
  `GeoDist`; every theorem about geofencing quantifies over it, so the
  results hold in particular for the concrete Haversine;
* route handlers become pure functions over an explicit database value
  (`Db`); raising `HTTPException` becomes returning `Except.error`, in
  which case the transaction is not committed and the database is
  unchanged.
-/

deriving instance DecidableEq for Except

namespace Clockout

/-- Seconds in one calendar day. -/
def secondsPerDay : Int := 86400

/-- `WAT_OFFSET = timedelta(hours=1)` from reports.py, in seconds. -/
def watOffset : Int := 3600

/-- `to_wat`: convert a UTC timestamp to West Africa Time (UTC+1). -/
def to_wat (t : Int) : Int := t + watOffset

/-- SQL `func.date(ts)` / Python `datetime.date()`: the calendar day of a
timestamp.  Timestamps in this development are nonnegative, where `/` is
plain floor division. -/
def tsDate (t : Int) : Int := t / secondsPerDay

/-- Python `datetime.time()` projected to seconds of the day. -/
def timeOfDay (t : Int) : Int := t % secondsPerDay

/-- Floor of a rational, computed from its reduced fraction. -/
def ratFloor (x : ℚ) : Int := Int.fdiv x.num (x.den : Int)

/-- Python 3 `round()` on an exact rational: round half to even. -/
def pythonRound (x : ℚ) : Int :=
  let f : Int := ratFloor x
  let r : ℚ := x - (f : ℚ)
  if r < 1/2 then f
  else if 1/2 < r then f + 1
  else if f % 2 = 0 then f else f + 1

/-- Python `round(x, 2)`. -/
def round2 (x : ℚ) : ℚ := (pythonRound (x * 100) : ℚ) / 100

/-- Python `round(x, 1)`. -/
def round1 (x : ℚ) : ℚ := (pythonRound (x * 10) : ℚ) / 10

/-- Python truthiness of an `Optional[int]` query parameter: `if x:` is
false both for `None` and for `0`. -/
def intTruthy : Option Int → Bool
  | none => false
  | some v => v != 0

/-- Stable insertion (ascending in `key`) used to model SQL `ORDER BY key ASC`. -/
def insertAscBy (key : α → Int) (x : α) : List α → List α
  | [] => [x]
  | y :: ys => if key x ≤ key y then x :: y :: ys else y :: insertAscBy key x ys

/-- Stable sort ascending in `key`. -/
def sortAscBy (key : α → Int) : List α → List α
  | [] => []
  | x :: xs => insertAscBy key x (sortAscBy key xs)

/-- Stable insertion (descending in `key`) used to model SQL `ORDER BY key DESC`. -/
def insertDescBy (key : α → Int) (x : α) : List α → List α
  | [] => [x]
  | y :: ys => if key y ≤ key x then x :: y :: ys else y :: insertDescBy key x ys

/-- Stable sort descending in `key`. -/
def sortDescBy (key : α → Int) : List α → List α
  | [] => []
  | x :: xs => insertDescBy key x (sortDescBy key xs)

theorem mem_insertAscBy (key : α → Int) (x a : α) (l : List α) :
    a ∈ insertAscBy key x l ↔ a = x ∨ a ∈ l := by
  induction l with
  | nil => simp [insertAscBy]
  | cons y ys ih =>
    simp only [insertAscBy]
    split
    · simp [List.mem_cons]
    · simp [List.mem_cons, ih]
      tauto

theorem mem_sortAscBy (key : α → Int) (a : α) (l : List α) :
    a ∈ sortAscBy key l ↔ a ∈ l := by
  induction l with
  | nil => simp [sortAscBy]
  | cons x xs ih => simp [sortAscBy, mem_insertAscBy, ih, List.mem_cons]

theorem mem_insertDescBy (key : α → Int) (x a : α) (l : List α) :
    a ∈ insertDescBy key x l ↔ a = x ∨ a ∈ l := by
  induction l with
  | nil => simp [insertDescBy]
  | cons y ys ih =>
    simp only [insertDescBy]
    split
    · simp [List.mem_cons]
    · simp [List.mem_cons, ih]
      tauto

theorem mem_sortDescBy (key : α → Int) (a : α) (l : List α) :
    a ∈ sortDescBy key l ↔ a ∈ l := by
  induction l with
  | nil => simp [sortDescBy]
  | cons x xs ih => simp [sortDescBy, mem_insertDescBy, ih, List.mem_cons]

/-! ## Data model

Relational rows, mirroring the columns the routes actually read and write
(`app/models/site.py`, `worker.py`, `task.py`; the `ClockEvent` and
`Device` columns follow the constructor calls in `routes/events.py` and
the schema in spec §6, since the ORM class file in the tree is stale). -/

/-- `sites` row.  `checkin_start` is a time-of-day in seconds. -/
structure Site where
  id : Int
  organization_id : Int
  name : String
  gps_lat : ℚ
  gps_lon : ℚ
  radius_m : ℚ
  checkin_start : Option Int
  deleted_at : Option Int
deriving Repr, DecidableEq

/-- `workers` row. -/
structure Worker where
  id : Int
  organization_id : Int
  site_id : Option Int
  name : String
  is_active : Bool
  deleted_at : Option Int
deriving Repr, DecidableEq

/-- Acting principal (`users` row fields the routes read). -/
structure User where
  id : Int
  organization_id : Int
  role : String
  user_mode : String
deriving Repr, DecidableEq

/-- Request payload `ClockEventCreate` (routes/events.py). -/
structure ClockEventCreate where
  worker_id : Int
  site_id : Int
  device_id : String
  event_type : String
  event_timestamp : Int
  gps_lat : ℚ
  gps_lon : ℚ
  accuracy_m : Option ℚ
deriving Repr, DecidableEq

/-- `clock_events` row. -/
structure ClockEvent where
  id : Int
  worker_id : Int
  site_id : Int
  device_id : Int
  event_type : String
  event_timestamp : Int
  gps_lat : ℚ
  gps_lon : ℚ
  accuracy_m : Option ℚ
  is_valid : Bool
  distance_m : Option ℚ
deriving Repr, DecidableEq

/-- `devices` row. -/
structure Device where
  id : Int
  device_id : String
  organization_id : Int
  site_id : Option Int
  last_sync : Option Int
deriving Repr, DecidableEq

/-- `auto_attendance` row (`app/models/task.py`). -/
structure AutoAttendance where
  id : Int
  worker_id : Int
  site_id : Int
  organization_id : Int
  clock_in_time : Int
  clock_in_gps_lat : ℚ
  clock_in_gps_lon : ℚ
  clock_in_accuracy_m : Option ℚ
  auto_clocked_in : Bool
  clock_out_time : Option Int
  clock_out_gps_lat : Option ℚ
  clock_out_gps_lon : Option ℚ
  clock_out_accuracy_m : Option ℚ
  auto_clocked_out : Option Bool
  total_hours : Option ℚ
  is_valid : Bool
  device_id : Option String
deriving Repr, DecidableEq

/-- `tasks` row fields read by `get_attendance_summary`. -/
structure Task where
  worker_id : Int
  status : String
  completed_at : Option Int
  created_at : Int
  deleted_at : Option Int
deriving Repr, DecidableEq

/-- The relational store the handlers run against. `user_sites` holds
`(user_id, site_id)` pairs. -/
structure Db where
  sites : List Site
  workers : List Worker
  events : List ClockEvent
  devices : List Device
  attendance : List AutoAttendance
  tasks : List Task
  user_sites : List (Int × Int)
deriving Repr, DecidableEq

/-- The typed failures raised as `HTTPException` by the handlers. -/
inductive ApiError where
  | siteNotFoundOrDenied
  | workerNotFoundOrDenied
  | siteAccessDenied
  | workerAccessDenied
  | alreadyClockedIn
  | noActiveClockIn
  | siteNotFound
  | geofenceViolation
  | noAccessibleSites
deriving Repr, DecidableEq

/-! ## routes/events.py -/

/-- Type of the geodesic distance function `calculate_distance(lat1, lon1,
lat2, lon2)` (Haversine, Earth radius 6 371 000 m, over IEEE doubles).
Its transcendental arithmetic is abstracted: the geofencing definitions
take an arbitrary `GeoDist` and the theorems hold for every one of them,
hence for the concrete Haversine. -/
abbrev GeoDist := ℚ → ℚ → ℚ → ℚ → ℚ

/-- `validate_geofence(event, site)` (routes/events.py lines 56-59):
computes the distance from the reported point to the site center and
compares it inclusively against the site radius.  Total: every input
produces a result. -/
def validate_geofence (dist : GeoDist) (event : ClockEventCreate) (site : Site) : Bool × ℚ :=
  let d := dist event.gps_lat event.gps_lon site.gps_lat site.gps_lon
  (decide (d ≤ site.radius_m), d)

/-- Site lookup scoped to the acting organization and excluding
soft-deleted rows (routes/events.py lines 74-78). -/
def findSiteOrg (sites : List Site) (user : User) (sid : Int) : Option Site :=
  sites.find? (fun s => s.id == sid && s.organization_id == user.organization_id && s.deleted_at.isNone)

/-- Worker lookup scoped to the acting organization and excluding
soft-deleted rows (routes/events.py lines 84-88). -/
def findWorkerOrg (workers : List Worker) (user : User) (wid : Int) : Option Worker :=
  workers.find? (fun w => w.id == wid && w.organization_id == user.organization_id && w.deleted_at.isNone)

/-- Device get-or-create (routes/events.py lines 93-107): returns the
device together with the possibly-extended database.  The fresh id is
server-assigned. -/
def getOrCreateDevice (db : Db) (user : User) (devStr : String) (sid : Int) : Device × Db :=
  match db.devices.find? (fun d => d.device_id == devStr && d.organization_id == user.organization_id) with
  | some d => (d, db)
  | none =>
    let d : Device := { id := (db.devices.length : Int) + 1, device_id := devStr,
                        organization_id := user.organization_id, site_id := some sid,
                        last_sync := none }
    (d, { db with devices := db.devices ++ [d] })

/-- The `ClockEvent` row built by `create_event` / `create_events_bulk`
from a request, with server-assigned identity `nid`. -/
def mkClockEvent (dist : GeoDist) (event : ClockEventCreate) (site : Site) (deviceId nid : Int) :
    ClockEvent :=
  let vg := validate_geofence dist event site
  { id := nid, worker_id := event.worker_id, site_id := event.site_id,
    device_id := deviceId, event_type := event.event_type,
    event_timestamp := event.event_timestamp, gps_lat := event.gps_lat,
    gps_lon := event.gps_lon, accuracy_m := event.accuracy_m,
    is_valid := vg.1, distance_m := some vg.2 }

/-- `create_event` (routes/events.py lines 62-134): the single-submission
path.  Validates site and worker ownership, gets or creates the device,
computes the geofence result and unconditionally persists the event —
the handler performs no duplicate check.  `now` is `datetime.utcnow()`
used for the device's `last_sync`. -/
def create_event (dist : GeoDist) (db : Db) (user : User) (event : ClockEventCreate) (now : Int) :
    Except ApiError (Db × ClockEvent) :=
  match findSiteOrg db.sites user event.site_id with
  | none => .error .siteNotFoundOrDenied
  | some site =>
    match findWorkerOrg db.workers user event.worker_id with
    | none => .error .workerNotFoundOrDenied
    | some _ =>
      let gd := getOrCreateDevice db user event.device_id event.site_id
      let device := gd.1
      let db1 := gd.2
      let ev := mkClockEvent dist event site device.id ((db1.events.length : Int) + 1)
      let db2 := { db1 with events := db1.events ++ [ev] }
      let updDev := fun (d : Device) =>
        if d.id == device.id then { d with last_sync := some now } else d
      let db3 := { db2 with devices := db2.devices.map updDev }
      .ok (db3, ev)

/-- The natural dedup key of a submission. -/
def reqTriple (e : ClockEventCreate) : Int × Int × Int := (e.worker_id, e.site_id, e.event_timestamp)

/-- The natural dedup key of a stored event. -/
def evTriple (e : ClockEvent) : Int × Int × Int := (e.worker_id, e.site_id, e.event_timestamp)

/-- Duplicate probe of the bulk path (routes/events.py lines 152-158):
an event with the same `(worker_id, site_id, event_timestamp)` already
exists.  Note the probe is not scoped to an organization. -/
def hasDuplicate (db : Db) (e : ClockEventCreate) : Bool :=
  db.events.any (fun x => x.worker_id == e.worker_id && x.site_id == e.site_id
    && x.event_timestamp == e.event_timestamp)

/-- One iteration of the bulk loop (routes/events.py lines 150-217):
skip duplicates, skip items whose site or worker is not owned by the
acting organization, otherwise validate the geofence and append. -/
def bulkStep (dist : GeoDist) (user : User) (acc : Db × List ClockEvent) (event : ClockEventCreate) :
    Db × List ClockEvent :=
  let db := acc.1
  let created := acc.2
  if hasDuplicate db event then acc
  else match findSiteOrg db.sites user event.site_id with
  | none => acc
  | some site =>
    match findWorkerOrg db.workers user event.worker_id with
    | none => acc
    | some _ =>
      let gd := getOrCreateDevice db user event.device_id event.site_id
      let device := gd.1
      let db1 := gd.2
      let ev := mkClockEvent dist event site device.id ((db1.events.length : Int) + 1)
      ({ db1 with events := db1.events ++ [ev] }, created ++ [ev])

/-- `create_events_bulk` (routes/events.py lines 137-224): the offline
bulk-sync path.  Total — per-item problems skip the item, they never
fail the batch. -/
def create_events_bulk (dist : GeoDist) (db : Db) (user : User) (events : List ClockEventCreate) :
    Db × List ClockEvent :=
  events.foldl (bulkStep dist user) (db, [])

/-- The ids of the caller's organization's non-deleted sites
(routes/events.py lines 241-245). -/
def orgSiteIds (db : Db) (user : User) : List Int :=
  (db.sites.filter (fun s => s.organization_id == user.organization_id && s.deleted_at.isNone)).map (·.id)

/-- The `site_id` filter step of `list_events` (routes/events.py lines
254-258), including the Python truthiness of `if site_id:`. -/
def applySiteFilter (site_ids : List Int) (site_id : Option Int) (q : List ClockEvent) :
    Except ApiError (List ClockEvent) :=
  if intTruthy site_id then
    if site_ids.contains (site_id.getD 0) then
      .ok (q.filter (fun e => e.site_id == site_id.getD 0))
    else .error .siteAccessDenied
  else .ok q

/-- The `worker_id` filter step of `list_events` (routes/events.py lines
260-268): the worker must belong to the caller's organization. -/
def applyWorkerFilter (db : Db) (user : User) (worker_id : Option Int) (q : List ClockEvent) :
    Except ApiError (List ClockEvent) :=
  if intTruthy worker_id then
    match db.workers.find? (fun w => w.id == worker_id.getD 0
        && w.organization_id == user.organization_id) with
    | none => .error .workerAccessDenied
    | some _ => .ok (q.filter (fun e => e.worker_id == worker_id.getD 0))
  else .ok q

/-- The `date` filter step of `list_events` (routes/events.py lines 270-271). -/
def applyDateFilter (dateF : Option Int) (q : List ClockEvent) : List ClockEvent :=
  match dateF with
  | some d => q.filter (fun e => tsDate e.event_timestamp == d)
  | none => q

/-- `list_events` (routes/events.py lines 227-273): events are drawn
from the caller's organization's sites only; optional site, worker and
date filters; result ordered by timestamp descending. -/
def list_events (db : Db) (user : User) (site_id worker_id dateF : Option Int) :
    Except ApiError (List ClockEvent) :=
  let site_ids := orgSiteIds db user
  if site_ids.isEmpty then .ok []
  else
    let q0 := db.events.filter (fun e => site_ids.contains e.site_id)
    match applySiteFilter site_ids site_id q0 with
    | .error er => .error er
    | .ok q1 =>
      match applyWorkerFilter db user worker_id q1 with
      | .error er => .error er
      | .ok q2 => .ok (sortDescBy (fun e => e.event_timestamp) (applyDateFilter dateF q2))

/-! ## routes/attendance.py -/

/-- `AttendanceClockInRequest` payload. -/
structure ClockInRequest where
  site_id : Int
  gps_lat : ℚ
  gps_lon : ℚ
  accuracy_m : Option ℚ
  auto : Bool
  device_id : Option String
deriving Repr, DecidableEq

/-- `AttendanceClockOutRequest` payload. -/
structure ClockOutRequest where
  gps_lat : ℚ
  gps_lon : ℚ
  accuracy_m : Option ℚ
  auto : Bool
deriving Repr, DecidableEq

/-- The open-record-today probe shared by `clock_in` and `clock_out`
(attendance.py lines 51-55 and 122-126): an attendance row of this
worker whose clock-in falls on `today` and with no clock-out yet. -/
def openToday (today wid : Int) (r : AutoAttendance) : Bool :=
  r.worker_id == wid && tsDate r.clock_in_time == today && r.clock_out_time.isNone

/-- `clock_in` (attendance.py lines 40-108).  Rejects when an open
record for today exists; looks the site up (unscoped, as in the source);
computes the geofence distance; an out-of-fence automatic submission is
rejected, an out-of-fence manual one is stored with `is_valid = false`.
`today` is `date.today()` and `now` is `datetime.utcnow()`.
`auto_clocked_out` is stored as `some true` by the column default. -/
def clock_in (dist : GeoDist) (db : Db) (worker : Worker) (req : ClockInRequest)
    (today now : Int) : Except ApiError (Db × AutoAttendance) :=
  if (db.attendance.find? (openToday today worker.id)).isSome then
    .error .alreadyClockedIn
  else
    match db.sites.find? (fun s => s.id == req.site_id) with
    | none => .error .siteNotFound
    | some site =>
      let d := dist req.gps_lat req.gps_lon site.gps_lat site.gps_lon
      let isv := decide (d ≤ site.radius_m)
      if !isv && req.auto then .error .geofenceViolation
      else
        let att : AutoAttendance :=
          { id := (db.attendance.length : Int) + 1, worker_id := worker.id,
            site_id := req.site_id, organization_id := worker.organization_id,
            clock_in_time := now, clock_in_gps_lat := req.gps_lat,
            clock_in_gps_lon := req.gps_lon, clock_in_accuracy_m := req.accuracy_m,
            auto_clocked_in := req.auto, clock_out_time := none,
            clock_out_gps_lat := none, clock_out_gps_lon := none,
            clock_out_accuracy_m := none, auto_clocked_out := some true,
            total_hours := none, is_valid := isv, device_id := req.device_id }
        .ok ({ db with attendance := db.attendance ++ [att] }, att)

/-- The mutation `clock_out` applies to the open record (attendance.py
lines 152-163): sets clock-out fields and
`total_hours = Decimal(str(round(duration_hours, 2)))`. -/
def closeRecord (req : ClockOutRequest) (now : Int) (r : AutoAttendance) : AutoAttendance :=
  { r with
    clock_out_time := some now, clock_out_gps_lat := some req.gps_lat,
    clock_out_gps_lon := some req.gps_lon, clock_out_accuracy_m := req.accuracy_m,
    auto_clocked_out := some req.auto,
    total_hours := some (round2 (((now - r.clock_in_time : Int) : ℚ) / 3600)) }

/-- Replace the first record matching `openToday` by its closed version. -/
def closeFirst (today wid : Int) (req : ClockOutRequest) (now : Int) :
    List AutoAttendance → List AutoAttendance
  | [] => []
  | r :: rs =>
    if openToday today wid r then closeRecord req now r :: rs
    else r :: closeFirst today wid req now rs

/-- `clock_out` (attendance.py lines 111-170): fails when no open record
for today exists, otherwise closes the first open record.  (The auto
clock-out geofence probe at lines 138-150 deliberately has no effect.) -/
def clock_out (db : Db) (worker : Worker) (req : ClockOutRequest) (today now : Int) :
    Except ApiError (Db × AutoAttendance) :=
  match db.attendance.find? (openToday today worker.id) with
  | none => .error .noActiveClockIn
  | some r =>
    .ok ({ db with attendance := closeFirst today worker.id req now db.attendance },
         closeRecord req now r)

/-- `AttendanceSummaryResponse` fields computed by the summary helper. -/
structure AttendanceSummary where
  worker_id : Int
  period : String
  days_present : Nat
  total_hours : ℚ
  avg_hours_per_day : ℚ
  tasks_completed : Nat
  completion_rate : ℚ
deriving Repr, DecidableEq

/-- SQL `BETWEEN start AND end` on calendar days. -/
def inRange (s e d : Int) : Bool := s ≤ d && d ≤ e

/-- `get_attendance_summary` (attendance.py lines 309-366):
`days_present` counts distinct clock-in days in range; `total_hours`
sums the non-null `total_hours` values (SQL `SUM` skips NULLs, and the
`or Decimal(0)` turns an all-NULL sum into 0); the average is guarded
against `days_present = 0`. -/
def get_attendance_summary (db : Db) (worker_id : Int) (start_date end_date : Int)
    (period : String) : AttendanceSummary :=
  let recs := db.attendance.filter (fun r => r.worker_id == worker_id
    && inRange start_date end_date (tsDate r.clock_in_time))
  let days_present := ((recs.map (fun r => tsDate r.clock_in_time)).dedup).length
  let total_hours := (recs.filterMap (·.total_hours)).sum
  let avg := if days_present > 0 then total_hours / (days_present : ℚ) else 0
  let tasks_completed := (db.tasks.filter (fun t => t.worker_id == worker_id
    && t.status == "completed"
    && (match t.completed_at with
        | some c => inRange start_date end_date (tsDate c)
        | none => false))).length
  let total_tasks := (db.tasks.filter (fun t => t.worker_id == worker_id
    && inRange start_date end_date (tsDate t.created_at) && t.deleted_at.isNone)).length
  let completion_rate := if total_tasks > 0
    then round1 ((tasks_completed : ℚ) / (total_tasks : ℚ) * 100) else 0
  { worker_id := worker_id, period := period, days_present := days_present,
    total_hours := total_hours, avg_hours_per_day := avg,
    tasks_completed := tasks_completed, completion_rate := completion_rate }

/-! ## routes/reports.py -/

/-- `is_late(check_in_time, site)` (reports.py lines 139-158): compares
the WAT time-of-day of the check-in against `site.checkin_start`
(default 06:00:00 when unset).  `minutes_late` mirrors
`int(seconds / 60)`, which truncates: both operands are nonnegative so
`/` on `Int` computes the same value. -/
def is_late (check_in_time : Int) (site : Site) : Bool × Int :=
  let expected := site.checkin_start.getD (6 * 3600)
  let tod := timeOfDay (to_wat check_in_time)
  if expected < tod then (true, (tod - expected) / 60)
  else (false, 0)

/-- `get_accessible_sites` (reports.py lines 109-136): admins see all of
their organization's non-deleted sites, managers only their assigned
`user_sites`; a requested `site_id` must be among them.  `if site_id:`
is Python truthiness again. -/
def get_accessible_sites (db : Db) (user : User) (site_id : Option Int) :
    Except ApiError (List Int) :=
  let site_ids :=
    if user.user_mode == "admin" || user.role == "admin" then orgSiteIds db user
    else (db.user_sites.filter (fun p => p.1 == user.id)).map (·.2)
  if intTruthy site_id then
    if site_ids.contains (site_id.getD 0) then .ok [site_id.getD 0]
    else .error .siteAccessDenied
  else .ok site_ids

/-- One row of `workers_present` in the daily summary.  The source
formats times as WAT `"%H:%M:%S"` strings; here they are WAT
time-of-day seconds. -/
structure WorkerAttendanceStatus where
  worker_id : Int
  name : String
  check_in_time : Option Int
  check_out_time : Option Int
  hours_worked : Option ℚ
  status : String
deriving Repr, DecidableEq

/-- `DailySummaryResponse` (reports.py lines 52-62); `workers_absent`
keeps worker ids. -/
structure DailySummary where
  target_date : Int
  total_workers : Nat
  present : Nat
  absent : Nat
  late : Nat
  on_time : Nat
  total_hours_worked : ℚ
  workers_present : List WorkerAttendanceStatus
  workers_absent : List Int
deriving Repr, DecidableEq

/-- Site lookup by bare id (`db.query(Site).filter(Site.id == sid).first()`). -/
def siteById (db : Db) (sid : Int) : Option Site :=
  db.sites.find? (fun s => s.id == sid)

/-- The per-worker body of the daily summary loop (reports.py lines
232-270), applied to the worker's events of the day sorted by
timestamp.  `next(e for e if type == "IN")` takes the FIRST "IN", and
likewise the FIRST "OUT".  Returns `none` when the worker has no "IN"
event (the source then adds the worker to neither list); otherwise the
`workers_present` row together with the raw duration added to
`total_hours` (0.0 when there is no "OUT" event).  The `siteById`
fallback `(false, 0)` is unreachable: the events query joins `Site`. -/
def summarizeWorkerDay (db : Db) (w : Worker) (evs : List ClockEvent) :
    Option (WorkerAttendanceStatus × ℚ) :=
  match evs.find? (fun e => e.event_type == "IN") with
  | none => none
  | some cin =>
    let cout := evs.find? (fun e => e.event_type == "OUT")
    let lt := match siteById db cin.site_id with
      | some s => is_late cin.event_timestamp s
      | none => (false, 0)
    let hoursRaw : ℚ := match cout with
      | some o => ((o.event_timestamp - cin.event_timestamp : Int) : ℚ) / 3600
      | none => 0
    some ({ worker_id := w.id, name := w.name,
            check_in_time := some (timeOfDay (to_wat cin.event_timestamp)),
            check_out_time := cout.map (fun o => timeOfDay (to_wat o.event_timestamp)),
            hours_worked := if hoursRaw > 0 then some (round2 hoursRaw) else none,
            status := if lt.1 then "late" else "on_time" }, hoursRaw)

/-- The day's events at the accessible sites (reports.py lines 206-211):
`join(Site)` keeps only events with a matching `sites` row; filtered to
the target UTC date; ordered by `(worker_id, event_timestamp)` — per
worker this is ascending timestamp order. -/
def dayEvents (db : Db) (accessible : List Int) (target_date : Int) : List ClockEvent :=
  sortAscBy (fun e => e.event_timestamp)
    (db.events.filter (fun e => accessible.contains e.site_id
      && db.sites.any (fun s => s.id == e.site_id)
      && tsDate e.event_timestamp == target_date))

/-- The active workers assigned to the accessible sites (reports.py
lines 197-201); a worker with `site_id` NULL is excluded by `IN`. -/
def activeWorkersAt (db : Db) (accessible : List Int) : List Worker :=
  db.workers.filter (fun w =>
    (match w.site_id with
     | some sid => accessible.contains sid
     | none => false) && w.deleted_at.isNone && w.is_active)

/-- `get_daily_summary` (reports.py lines 165-289). -/
def get_daily_summary (db : Db) (user : User) (target_date : Int) (site_id : Option Int) :
    Except ApiError DailySummary :=
  match get_accessible_sites db user site_id with
  | .error er => .error er
  | .ok accessible =>
    if accessible.isEmpty then .error .noAccessibleSites
    else
      let all_workers := activeWorkersAt db accessible
      let events := dayEvents db accessible target_date
      let evsOf := fun (w : Worker) => events.filter (fun e => e.worker_id == w.id)
      let presentRows := all_workers.filterMap (fun w =>
        if (evsOf w).isEmpty then none
        else (summarizeWorkerDay db w (evsOf w)).map (·.1))
      let contributions := all_workers.filterMap (fun w =>
        if (evsOf w).isEmpty then none
        else (summarizeWorkerDay db w (evsOf w)).map (·.2))
      let absentIds := (all_workers.filter (fun w => (evsOf w).isEmpty)).map (·.id)
      .ok { target_date := target_date,
            total_workers := all_workers.length,
            present := presentRows.length,
            absent := absentIds.length,
            late := (presentRows.filter (fun r => r.status == "late")).length,
            on_time := (presentRows.filter (fun r => r.status == "on_time")).length,
            total_hours_worked := round2 contributions.sum,
            workers_present := presentRows,
            workers_absent := absentIds }

/-- One grouped `(worker, WAT day)` record of the CSV export
(reports.py lines 509-551).  Times are WAT time-of-day seconds standing
for the `"%H:%M:%S"` strings the source stores. -/
structure CsvRecord where
  rdate : Int
  worker_id : Int
  check_in : Option Int
  check_out : Option Int
  hours_worked : Option ℚ
  status : String
  accuracy : Option ℚ
  distance_m : Option ℚ
deriving Repr, DecidableEq

/-- Apply one event to its `(worker, WAT day)` record (reports.py lines
532-535): the first "IN" sets `check_in`, every "OUT" overwrites
`check_out` — so `check_in` is the first IN and `check_out` the last
OUT of the day. -/
def csvApply (e : ClockEvent) (r : CsvRecord) : CsvRecord :=
  let t := timeOfDay (to_wat e.event_timestamp)
  if e.event_type == "IN" && r.check_in.isNone then { r with check_in := some t }
  else if e.event_type == "OUT" then { r with check_out := some t }
  else r

/-- One iteration of the CSV grouping loop (reports.py lines 512-535):
create the day record on first sight of the key, then apply the event. -/
def csvStep (recs : List CsvRecord) (e : ClockEvent) : List CsvRecord :=
  let d := tsDate (to_wat e.event_timestamp)
  if recs.any (fun r => r.worker_id == e.worker_id && r.rdate == d) then
    recs.map (fun r =>
      if r.worker_id == e.worker_id && r.rdate == d then csvApply e r else r)
  else
    let base : CsvRecord :=
      { rdate := d, worker_id := e.worker_id, check_in := none,
        check_out := none, hours_worked := none, status := "",
        accuracy := e.accuracy_m, distance_m := e.distance_m }
    recs ++ [csvApply e base]

/-- The hours/status pass of the CSV export (reports.py lines 538-551):
when both times are present the duration is their same-day difference
(which may be negative when the last OUT precedes the first IN),
otherwise `None`. -/
def csvFinalize (r : CsvRecord) : CsvRecord :=
  let hours := match r.check_in, r.check_out with
    | some ci, some co => some (round2 (((co - ci : Int) : ℚ) / 3600))
    | _, _ => none
  { r with
    hours_worked := hours,
    status := if r.check_in.isSome then "Present" else "Absent" }

/-- `export_attendance_csv` (reports.py lines 475-585), up to the pure
row data (the source then serializes the rows sorted by date and worker
name; row contents are unchanged by that).  The events query joins
`Site` and `Worker` and takes the inclusive WAT-date range on the UTC
calendar day of the timestamp. -/
def export_attendance_csv (db : Db) (user : User) (start_date end_date : Int)
    (site_id : Option Int) : Except ApiError (List CsvRecord) :=
  match get_accessible_sites db user site_id with
  | .error er => .error er
  | .ok accessible =>
    if accessible.isEmpty then .error .noAccessibleSites
    else
      let events := sortAscBy (fun e => e.event_timestamp)
        (db.events.filter (fun e => accessible.contains e.site_id
          && db.sites.any (fun s => s.id == e.site_id)
          && db.workers.any (fun w => w.id == e.worker_id)
          && inRange start_date end_date (tsDate e.event_timestamp)))
      .ok ((events.foldl csvStep []).map csvFinalize)

/-! ## Concrete fixtures used by witnesses and counterexamples -/

/-- A site of organization 1 at the origin with a 100 m radius and no
configured check-in window. -/
def siteA : Site :=
  { id := 1, organization_id := 1, name := "A", gps_lat := 0, gps_lon := 0,
    radius_m := 100, checkin_start := none, deleted_at := none }

/-- A site of organization 2 whose id is `0`. -/
def siteB0 : Site :=
  { id := 0, organization_id := 2, name := "B", gps_lat := 50, gps_lon := 50,
    radius_m := 100, checkin_start := none, deleted_at := none }

/-- An active worker of organization 1 assigned to `siteA`. -/
def workerA : Worker :=
  { id := 1, organization_id := 1, site_id := some 1, name := "W",
    is_active := true, deleted_at := none }

/-- An admin principal of organization 1. -/
def userA : User := { id := 1, organization_id := 1, role := "admin", user_mode := "admin" }

/-- A distance function reporting 150 m everywhere (outside `siteA`'s radius). -/
def distFar : GeoDist := fun _ _ _ _ => 150

/-- A distance function reporting 0 m everywhere. -/
def distZero : GeoDist := fun _ _ _ _ => 0

/-- An empty store apart from `siteA` and `workerA`. -/
def dbBase : Db :=
  { sites := [siteA], workers := [workerA], events := [], devices := [],
    attendance := [], tasks := [], user_sites := [] }

/-- A stored clock event for worker 1 at site 1. -/
def mkEv (i : Int) (ty : String) (ts : Int) : ClockEvent :=
  { id := i, worker_id := 1, site_id := 1, device_id := 1, event_type := ty,
    event_timestamp := ts, gps_lat := 0, gps_lon := 0, accuracy_m := none,
    is_valid := true, distance_m := none }

/-- A distance function reporting exactly 100 m everywhere (on `siteA`'s boundary). -/
def distBoundary : GeoDist := fun _ _ _ _ => 100

/-- A submission payload for worker 1 at site 1. -/
def reqA : ClockEventCreate :=
  { worker_id := 1, site_id := 1, device_id := "d1", event_type := "IN",
    event_timestamp := 1000, gps_lat := 0, gps_lon := 0, accuracy_m := none }

/-- An automatic attendance clock-in request at site 1. -/
def reqAutoTrue : ClockInRequest :=
  { site_id := 1, gps_lat := 0, gps_lon := 0, accuracy_m := none,
    auto := true, device_id := none }

/-- A manual attendance clock-in request at site 1. -/
def reqAutoFalse : ClockInRequest :=
  { site_id := 1, gps_lat := 0, gps_lon := 0, accuracy_m := none,
    auto := false, device_id := none }

/-- An attendance clock-out request. -/
def reqOut : ClockOutRequest :=
  { gps_lat := 0, gps_lon := 0, accuracy_m := none, auto := false }

/-! ## Claim C3 — geofence validation result -/

/-- C3: for every distance function (in particular the Haversine with
Earth radius 6 371 000 m), every reported coordinate pair and every
site, `validate_geofence` returns the computed distance together with
`isValid = (distance ≤ site.radius_m)`; the boundary is inclusive (a
point at exactly the radius is valid, any strictly greater distance is
invalid), and a result is always produced (the function is total, with
no error branch). -/
theorem C3_geofence_validation (dist : GeoDist) (event : ClockEventCreate) (site : Site) :
    (validate_geofence dist event site).2
        = dist event.gps_lat event.gps_lon site.gps_lat site.gps_lon
    ∧ ((validate_geofence dist event site).1 = true
        ↔ dist event.gps_lat event.gps_lon site.gps_lat site.gps_lon ≤ site.radius_m)
    ∧ ((validate_geofence dist event site).2 = site.radius_m
        → (validate_geofence dist event site).1 = true)
    ∧ (site.radius_m < (validate_geofence dist event site).2
        → (validate_geofence dist event site).1 = false) := by
  refine ⟨rfl, by simp [validate_geofence], ?_, ?_⟩
  · intro h
    simp only [validate_geofence] at h ⊢
    simp [h]
  · intro h
    simp only [validate_geofence] at h ⊢
    simp [not_le.mpr h]

/-- Witness for C3 at concrete inputs: a point at exactly 100 m from a
100 m-radius site is valid (inclusive boundary), a point at 150 m is
not. -/
theorem C3_geofence_validation_witness :
    (validate_geofence distBoundary reqA siteA).1 = true
    ∧ (validate_geofence distFar reqA siteA).1 = false :=
  ⟨(C3_geofence_validation distBoundary reqA siteA).2.2.1 (by decide),
   (C3_geofence_validation distFar reqA siteA).2.2.2 (by decide)⟩

/-! ## Claim C6 — lateness classification -/

/-- Counterexample to C6 as stated: with the default 06:00:00 window, a
check-in at WAT 06:00:01 (UTC timestamp 18001) is classified late, but
`minutes_late` is `int(1/60) = 0`, not 1 minute as the claim asserts. -/
theorem C6_counterexample :
    is_late 18001 siteA = (true, 0) ∧ (is_late 18001 siteA).2 ≠ 1 := by decide

/-- C6 (amended): the check-in is late iff its WAT time-of-day strictly
exceeds the window start (`site.checkin_start`, defaulting to 06:00:00),
so a check-in at exactly the window start is on-time; when late,
`minutes_late` is the difference in seconds divided by 60 and truncated
(a check-in at 06:00:01 is late with `minutes_late = 0`; 1 minute is
reached only at 06:01:00); when not late the result is `(false, 0)`. -/
theorem C6_lateness_classification (t : Int) (site : Site) :
    ((is_late t site).1 = true ↔ site.checkin_start.getD 21600 < timeOfDay (to_wat t))
    ∧ (site.checkin_start.getD 21600 < timeOfDay (to_wat t)
        → (is_late t site).2
            = (timeOfDay (to_wat t) - site.checkin_start.getD 21600) / 60)
    ∧ (timeOfDay (to_wat t) ≤ site.checkin_start.getD 21600
        → is_late t site = (false, 0)) := by
  by_cases h : site.checkin_start.getD 21600 < timeOfDay (to_wat t)
  · exact ⟨by simp [is_late, h], fun _ => by simp [is_late, h],
      fun h2 => absurd h (not_lt.mpr h2)⟩
  · exact ⟨by simp [is_late, h], fun h2 => absurd h2 h, fun _ => by simp [is_late, h]⟩

/-- Witness for C6 at concrete inputs: a check-in at WAT 06:01:00 is
late by 1 minute; a check-in at exactly WAT 06:00:00 is on-time. -/
theorem C6_lateness_classification_witness :
    (is_late 18060 siteA).2 = 1 ∧ is_late 18000 siteA = (false, 0) :=
  ⟨((C6_lateness_classification 18060 siteA).2.1 (by decide)).trans (by decide),
   (C6_lateness_classification 18000 siteA).2.2 (by decide)⟩

/-! ## Claim C2 — geofence rejection asymmetry on clock-in -/

/-- C2: for a clock-in reaching the geofence check (no open attendance
record today, site found) whose reported position is strictly farther
from the site center than the site radius: an automatic submission
fails with `geofenceViolation` (the error branch stores nothing), a
manual submission succeeds and stores a record with `is_valid = false`. -/
theorem C2_geofence_asymmetry (dist : GeoDist) (db : Db) (worker : Worker)
    (req : ClockInRequest) (today now : Int) (site : Site)
    (hopen : db.attendance.find? (openToday today worker.id) = none)
    (hsite : db.sites.find? (fun s => s.id == req.site_id) = some site)
    (hfar : site.radius_m < dist req.gps_lat req.gps_lon site.gps_lat site.gps_lon) :
    (req.auto = true
      → clock_in dist db worker req today now = .error .geofenceViolation)
    ∧ (req.auto = false
      → ∃ db' att, clock_in dist db worker req today now = .ok (db', att)
          ∧ db'.attendance = db.attendance ++ [att]
          ∧ att.is_valid = false ∧ att.auto_clocked_in = false) := by
  unfold clock_in
  rw [hopen, hsite]
  simp only [Option.isSome_none, Bool.false_eq_true, if_false]
  have hnle : ¬ dist req.gps_lat req.gps_lon site.gps_lat site.gps_lon ≤ site.radius_m :=
    not_le.mpr hfar
  constructor
  · intro ha
    simp [hnle, ha]
  · intro ha
    rw [ha]
    refine ⟨_, _, if_neg (by simp), rfl, ?_, rfl⟩
    simp [hnle]

/-- Witness for C2 at concrete inputs: distance 150 m to a 100 m-radius
site; the automatic request is rejected, the manual one is stored
invalid. -/
theorem C2_geofence_asymmetry_witness :
    clock_in distFar dbBase workerA reqAutoTrue 0 100 = .error .geofenceViolation
    ∧ ∃ db' att, clock_in distFar dbBase workerA reqAutoFalse 0 100 = .ok (db', att)
        ∧ db'.attendance = dbBase.attendance ++ [att]
        ∧ att.is_valid = false ∧ att.auto_clocked_in = false :=
  ⟨(C2_geofence_asymmetry distFar dbBase workerA reqAutoTrue 0 100 siteA
      (by decide) (by decide) (by decide)).1 rfl,
   (C2_geofence_asymmetry distFar dbBase workerA reqAutoFalse 0 100 siteA
      (by decide) (by decide) (by decide)).2 rfl⟩

/-! ## Claim C9 — range summary totals and guarded average -/

/-- Summing the non-null values of a nullable column (what SQL `SUM`
does) equals summing with null read as 0. -/
theorem sum_filterMap_getD (l : List AutoAttendance) :
    (l.filterMap (fun r => r.total_hours)).sum
      = (l.map (fun r => r.total_hours.getD 0)).sum := by
  induction l with
  | nil => rfl
  | cons a t ih => cases h : a.total_hours <;> simp [List.filterMap_cons, h, ih]

/-- C9: over the records of the worker in the date range, `days_present`
counts distinct clock-in calendar days, `total_hours` sums the per-record
durations with a NULL duration (open shift, no clock-out) contributing 0
rather than null or an error, and the average is `total_hours /
days_present` when `days_present > 0` and 0 when `days_present = 0` —
no division-by-zero failure. -/
theorem C9_range_summary (db : Db) (wid s e : Int) (p : String) :
    (get_attendance_summary db wid s e p).days_present
      = (((db.attendance.filter (fun a => a.worker_id == wid
          && inRange s e (tsDate a.clock_in_time))).map
            (fun a => tsDate a.clock_in_time)).dedup).length
    ∧ (get_attendance_summary db wid s e p).total_hours
      = ((db.attendance.filter (fun a => a.worker_id == wid
          && inRange s e (tsDate a.clock_in_time))).map
            (fun a => a.total_hours.getD 0)).sum
    ∧ ((get_attendance_summary db wid s e p).days_present = 0
        → (get_attendance_summary db wid s e p).avg_hours_per_day = 0)
    ∧ (0 < (get_attendance_summary db wid s e p).days_present
        → (get_attendance_summary db wid s e p).avg_hours_per_day
          = (get_attendance_summary db wid s e p).total_hours
            / ((get_attendance_summary db wid s e p).days_present : ℚ)) := by
  refine ⟨rfl, sum_filterMap_getD _, ?_, ?_⟩
  · intro h
    simp only [get_attendance_summary] at h ⊢
    simp [h]
  · intro h
    simp only [get_attendance_summary] at h ⊢
    rw [if_pos h]

/-- A completed attendance record of worker 1 on day 0 with 8 recorded
hours. -/
def attDone : AutoAttendance :=
  { id := 1, worker_id := 1, site_id := 1, organization_id := 1,
    clock_in_time := 100, clock_in_gps_lat := 0, clock_in_gps_lon := 0,
    clock_in_accuracy_m := none, auto_clocked_in := false,
    clock_out_time := some 28900, clock_out_gps_lat := some 0,
    clock_out_gps_lon := some 0, clock_out_accuracy_m := none,
    auto_clocked_out := some false, total_hours := some 8, is_valid := true,
    device_id := none }

/-- An open attendance record of worker 1 on day 1 (no clock-out, NULL
hours). -/
def attOpenDay1 : AutoAttendance :=
  { id := 2, worker_id := 1, site_id := 1, organization_id := 1,
    clock_in_time := 86500, clock_in_gps_lat := 0, clock_in_gps_lon := 0,
    clock_in_accuracy_m := none, auto_clocked_in := false, clock_out_time := none,
    clock_out_gps_lat := none, clock_out_gps_lon := none, clock_out_accuracy_m := none,
    auto_clocked_out := some true, total_hours := none, is_valid := true,
    device_id := none }

/-- A store with one completed and one open attendance day. -/
def dbC9 : Db := { dbBase with attendance := [attDone, attOpenDay1] }

/-- Witness for C9 at concrete inputs: with one completed day (8 h) and
one open day (NULL hours) the average is guarded total/days; with no
records at all the average is 0, not a division error; the total treats
the NULL day as 0. -/
theorem C9_range_summary_witness :
    (get_attendance_summary dbC9 1 0 5 "week").avg_hours_per_day
      = (get_attendance_summary dbC9 1 0 5 "week").total_hours
        / ((get_attendance_summary dbC9 1 0 5 "week").days_present : ℚ)
    ∧ (get_attendance_summary dbBase 1 0 5 "week").avg_hours_per_day = 0
    ∧ (get_attendance_summary dbC9 1 0 5 "week").total_hours
      = ((dbC9.attendance.filter (fun a => a.worker_id == 1
          && inRange 0 5 (tsDate a.clock_in_time))).map
            (fun a => a.total_hours.getD 0)).sum :=
  ⟨(C9_range_summary dbC9 1 0 5 "week").2.2.2 (by decide),
   (C9_range_summary dbBase 1 0 5 "week").2.2.1 (by decide),
   (C9_range_summary dbC9 1 0 5 "week").2.1⟩

/-! ## Claim C10 — single open attendance record per worker per day -/

/-- Closing the first open record removes the only satisfied occurrence
of the open-record predicate. -/
theorem countP_closeFirst (today wid : Int) (req : ClockOutRequest) (now : Int)
    (l : List AutoAttendance) (r : AutoAttendance)
    (hf : l.find? (openToday today wid) = some r)
    (hle : l.countP (openToday today wid) ≤ 1) :
    (closeFirst today wid req now l).countP (openToday today wid) = 0 := by
  induction l with
  | nil => simp at hf
  | cons a t ih =>
    by_cases pa : openToday today wid a = true
    · have hcl : openToday today wid (closeRecord req now a) = false := by
        simp [openToday, closeRecord]
      have ht : t.countP (openToday today wid) = 0 := by
        rw [List.countP_cons_of_pos _ _ pa] at hle
        omega
      simp only [closeFirst, pa, if_true]
      simp [List.countP_cons, hcl, ht]
    · have pa' : openToday today wid a = false := by
        simpa using pa
      have hf' : t.find? (openToday today wid) = some r := by
        rwa [List.find?_cons_of_neg _ pa] at hf
      have hle' : t.countP (openToday today wid) ≤ 1 := by
        rwa [List.countP_cons_of_neg _ _ pa] at hle
      simp only [closeFirst, pa', Bool.false_eq_true, if_false]
      simp [List.countP_cons, pa', ih hf' hle']

/-- C10: on the attendance path, `clock_in` fails (storing nothing) when
an open record for the worker dated today exists and `clock_out` fails
(changing nothing) when none exists; a successful `clock_in` starts from
zero open records for (worker, today) and leaves exactly one, and a
successful `clock_out` under the at-most-one-open invariant leaves zero,
stamping the closed record with the clock-out time — so this path can
never create a second open record for the same worker and day. -/
theorem C10_single_open_record (dist : GeoDist) (db : Db) (worker : Worker)
    (reqI : ClockInRequest) (reqO : ClockOutRequest) (today now : Int) :
    ((db.attendance.find? (openToday today worker.id)).isSome = true
      → clock_in dist db worker reqI today now = .error .alreadyClockedIn)
    ∧ (db.attendance.find? (openToday today worker.id) = none
      → clock_out db worker reqO today now = .error .noActiveClockIn)
    ∧ (∀ db' att, tsDate now = today
      → clock_in dist db worker reqI today now = .ok (db', att)
      → db.attendance.countP (openToday today worker.id) = 0
        ∧ db'.attendance.countP (openToday today worker.id) = 1)
    ∧ (∀ db' att, db.attendance.countP (openToday today worker.id) ≤ 1
      → clock_out db worker reqO today now = .ok (db', att)
      → db'.attendance.countP (openToday today worker.id) = 0
        ∧ att.clock_out_time = some now) := by
  refine ⟨?_, ?_, ?_, ?_⟩
  · intro h
    simp [clock_in, h]
  · intro h
    simp [clock_out, h]
  · intro db' att hnow hok
    by_cases hf : (db.attendance.find? (openToday today worker.id)).isSome = true
    · simp [clock_in, hf] at hok
    · have hz : db.attendance.countP (openToday today worker.id) = 0 := by
        refine List.countP_eq_zero.mpr ?_
        exact List.find?_eq_none.mp (Option.not_isSome_iff_eq_none.mp hf)
      refine ⟨hz, ?_⟩
      unfold clock_in at hok
      rw [Option.not_isSome_iff_eq_none.mp hf] at hok
      simp only [Option.isSome_none, Bool.false_eq_true, if_false] at hok
      cases hs : db.sites.find? (fun s => s.id == reqI.site_id) with
      | none => rw [hs] at hok; simp at hok
      | some site =>
        rw [hs] at hok
        by_cases hgeo : (!decide (dist reqI.gps_lat reqI.gps_lon site.gps_lat site.gps_lon
            ≤ site.radius_m) && reqI.auto) = true
        · simp [hgeo] at hok
        · simp only [hgeo, Bool.false_eq_true, if_false, Except.ok.injEq,
            Prod.mk.injEq] at hok
          obtain ⟨hdb, hatt⟩ := hok
          subst hdb
          simp [List.countP_append, List.countP_cons, hz, openToday, hnow]
  · intro db' att hle hok
    cases hfo : db.attendance.find? (openToday today worker.id) with
    | none => simp [clock_out, hfo] at hok
    | some r =>
      unfold clock_out at hok
      rw [hfo] at hok
      have h1 := (Except.ok.injEq _ _).mp hok
      have hdb : db' = { db with
          attendance := closeFirst today worker.id reqO now db.attendance } :=
        (congrArg Prod.fst h1).symm
      have hatt : att = closeRecord reqO now r := (congrArg Prod.snd h1).symm
      subst hdb hatt
      exact ⟨countP_closeFirst today worker.id reqO now db.attendance r hfo hle,
        by simp [closeRecord]⟩

/-- An open attendance record of worker 1 clocked in at timestamp 100
(day 0). -/
def attOpen : AutoAttendance :=
  { id := 1, worker_id := 1, site_id := 1, organization_id := 1,
    clock_in_time := 100, clock_in_gps_lat := 0, clock_in_gps_lon := 0,
    clock_in_accuracy_m := none, auto_clocked_in := false, clock_out_time := none,
    clock_out_gps_lat := none, clock_out_gps_lon := none, clock_out_accuracy_m := none,
    auto_clocked_out := some true, total_hours := none, is_valid := true,
    device_id := none }

/-- The store holding the single open record `attOpen`. -/
def dbOpen : Db := { dbBase with attendance := [attOpen] }

/-- The record a fresh manual clock-in at timestamp 100 produces. -/
def attFresh : AutoAttendance :=
  { id := 1, worker_id := 1, site_id := 1, organization_id := 1,
    clock_in_time := 100, clock_in_gps_lat := 0, clock_in_gps_lon := 0,
    clock_in_accuracy_m := none, auto_clocked_in := false, clock_out_time := none,
    clock_out_gps_lat := none, clock_out_gps_lon := none, clock_out_accuracy_m := none,
    auto_clocked_out := some true, total_hours := none, is_valid := true,
    device_id := none }

/-- The store after that fresh clock-in. -/
def dbAfterIn : Db := { dbBase with attendance := [attFresh] }

/-- The record after clocking `attFresh` out at timestamp 200. -/
def attClosed : AutoAttendance := closeRecord reqOut 200 attFresh

/-- The store after that clock-out. -/
def dbAfterOut : Db := { dbBase with attendance := [attClosed] }

/-- Witness for C10 at concrete inputs: a second clock-in over an open
record errors, a clock-out with no open record errors, a successful
clock-in goes from zero to one open record, and a successful clock-out
closes it again. -/
theorem C10_single_open_record_witness :
    clock_in distZero dbOpen workerA reqAutoFalse 0 200 = .error .alreadyClockedIn
    ∧ clock_out dbBase workerA reqOut 0 200 = .error .noActiveClockIn
    ∧ (dbBase.attendance.countP (openToday 0 1) = 0
        ∧ dbAfterIn.attendance.countP (openToday 0 1) = 1)
    ∧ (dbAfterOut.attendance.countP (openToday 0 1) = 0
        ∧ attClosed.clock_out_time = some 200) :=
  ⟨(C10_single_open_record distZero dbOpen workerA reqAutoFalse reqOut 0 200).1 (by decide),
   (C10_single_open_record distZero dbBase workerA reqAutoFalse reqOut 0 200).2.1 (by decide),
   (C10_single_open_record distZero dbBase workerA reqAutoFalse reqOut 0 100).2.2.1
      dbAfterIn attFresh (by decide) (by rfl),
   (C10_single_open_record distZero dbAfterIn workerA reqAutoFalse reqOut 0 200).2.2.2
      dbAfterOut attClosed (by decide) (by rfl)⟩

/-! ## Claim C4 — single-submission duplicate handling -/

/-- Device get-or-create touches only the `devices` table. -/
theorem getOrCreateDevice_pres (db : Db) (user : User) (ds : String) (sid : Int) :
    ((getOrCreateDevice db user ds sid).2).events = db.events
    ∧ ((getOrCreateDevice db user ds sid).2).sites = db.sites
    ∧ ((getOrCreateDevice db user ds sid).2).workers = db.workers := by
  unfold getOrCreateDevice
  cases h : db.devices.find? (fun d => d.device_id == ds
    && d.organization_id == user.organization_id) <;> simp

/-- The store already holding the event with triple `(1, 1, 1000)` that
`reqA` duplicates. -/
def dbC4 : Db := { dbBase with events := [mkEv 1 "IN" 1000] }

/-- Counterexample to C4 as stated: submitting `reqA`, whose
`(worker_id, site_id, event_timestamp)` triple `(1, 1, 1000)` is already
stored, does NOT fail with a duplicate error — `create_event` performs
no duplicate check, succeeds, and the store afterwards holds two events
with that identical triple. -/
theorem C4_counterexample :
    (create_event distZero dbC4 userA reqA 0).toOption.map
      (fun p => (p.1.events.filter (fun x => x.worker_id == 1 && x.site_id == 1
        && x.event_timestamp == 1000)).length) = some 2 := by decide

/-- C4 (amended): the single-submission path performs no duplicate
check.  Every submission whose site and worker pass the organization
ownership lookups is persisted — whether or not an event with the same
`(worker_id, site_id, event_timestamp)` triple already exists — and is
returned with a server-assigned identity; duplicate detection exists
only on the bulk path, which skips rather than errors. -/
theorem C4_single_path_no_dedup (dist : GeoDist) (db : Db) (user : User)
    (event : ClockEventCreate) (now : Int) (site : Site) (w : Worker)
    (hsite : findSiteOrg db.sites user event.site_id = some site)
    (hworker : findWorkerOrg db.workers user event.worker_id = some w) :
    ∃ db' ev, create_event dist db user event now = .ok (db', ev)
      ∧ db'.events = db.events ++ [ev]
      ∧ ev.worker_id = event.worker_id ∧ ev.site_id = event.site_id
      ∧ ev.event_timestamp = event.event_timestamp
      ∧ ev.id = (db.events.length : Int) + 1 := by
  have hpres := (getOrCreateDevice_pres db user event.device_id event.site_id).1
  unfold create_event
  rw [hsite, hworker]
  refine ⟨_, _, rfl, ?_, rfl, rfl, rfl, ?_⟩
  · show (getOrCreateDevice db user event.device_id event.site_id).2.events ++ _ = _
    rw [hpres]
  · show ((getOrCreateDevice db user event.device_id event.site_id).2.events.length : Int)
        + 1 = _
    rw [hpres]

/-- Witness for C4 at concrete inputs: the duplicate submission `reqA`
against `dbC4` is accepted and appended with id 2. -/
theorem C4_single_path_no_dedup_witness :
    ∃ db' ev, create_event distZero dbC4 userA reqA 0 = .ok (db', ev)
      ∧ db'.events = dbC4.events ++ [ev]
      ∧ ev.worker_id = reqA.worker_id ∧ ev.site_id = reqA.site_id
      ∧ ev.event_timestamp = reqA.event_timestamp
      ∧ ev.id = (dbC4.events.length : Int) + 1 :=
  C4_single_path_no_dedup distZero dbC4 userA reqA 0 siteA workerA
    (by decide) (by decide)

/-! ## Claim C1 — tenant isolation of event reads -/

theorem mem_orgSiteIds (db : Db) (user : User) (i : Int) :
    i ∈ orgSiteIds db user
      ↔ ∃ s ∈ db.sites, s.id = i ∧ s.organization_id = user.organization_id
          ∧ s.deleted_at = none := by
  unfold orgSiteIds
  simp only [List.mem_map, List.mem_filter, Bool.and_eq_true, beq_iff_eq,
    Option.isNone_iff_eq_none]
  constructor
  · rintro ⟨s, ⟨hs, ho, hd⟩, hi⟩
    exact ⟨s, hs, hi, ho, hd⟩
  · rintro ⟨s, hs, hi, ho, hd⟩
    exact ⟨s, ⟨hs, ho, hd⟩, hi⟩

theorem applySiteFilter_ok_sub (ids : List Int) (sf : Option Int)
    (q q' : List ClockEvent) (h : applySiteFilter ids sf q = .ok q') :
    ∀ a ∈ q', a ∈ q := by
  unfold applySiteFilter at h
  split at h
  · split at h
    · cases h
      exact fun a ha => (List.mem_filter.mp ha).1
    · cases h
  · cases h
    exact fun a ha => ha

theorem applyWorkerFilter_ok_sub (db : Db) (user : User) (wf : Option Int)
    (q q' : List ClockEvent) (h : applyWorkerFilter db user wf q = .ok q') :
    ∀ a ∈ q', a ∈ q := by
  unfold applyWorkerFilter at h
  split at h
  · split at h
    · cases h
    · cases h
      exact fun a ha => (List.mem_filter.mp ha).1
  · cases h
    exact fun a ha => ha

theorem mem_applyDateFilter (df : Option Int) (q : List ClockEvent) (a : ClockEvent)
    (h : a ∈ applyDateFilter df q) : a ∈ q := by
  unfold applyDateFilter at h
  cases df with
  | some d => exact (List.mem_filter.mp h).1
  | none => exact h

/-- C1 (amended): `list_events` only ever returns events whose site is a
non-deleted site of the caller's organization — never an event at
another organization's site; and, provided the caller's organization has
at least one non-deleted site, a NONZERO `site_id` filter that is not
one of the organization's sites fails with access denied, as does (in
the absence of a site filter) a nonzero `worker_id` filter matching no
worker of the organization.  (A filter value of exactly 0 is ignored by
Python truthiness rather than rejected — see the counterexample — and
when the organization has no sites the result is the empty list, not an
error.) -/
theorem C1_tenant_isolation (db : Db) (user : User) (sf wf df : Option Int) :
    (∀ evs, list_events db user sf wf df = .ok evs →
      ∀ e ∈ evs, ∃ s ∈ db.sites, s.id = e.site_id
        ∧ s.organization_id = user.organization_id ∧ s.deleted_at = none)
    ∧ (∀ sid, sf = some sid → sid ≠ 0 → orgSiteIds db user ≠ []
        → sid ∉ orgSiteIds db user
        → list_events db user sf wf df = .error .siteAccessDenied)
    ∧ (∀ wid, sf = none → wf = some wid → wid ≠ 0 → orgSiteIds db user ≠ []
        → (∀ w ∈ db.workers, ¬(w.id = wid ∧ w.organization_id = user.organization_id))
        → list_events db user sf wf df = .error .workerAccessDenied) := by
  refine ⟨?_, ?_, ?_⟩
  · intro evs hok e he
    simp only [list_events] at hok
    split at hok
    · cases hok
      simp at he
    · split at hok
      next h1 => cases hok
      next q1 h1 =>
        split at hok
        next h2 => cases hok
        next q2 h2 =>
          cases hok
          have he2 : e ∈ q2 := by
            have := (mem_sortDescBy (fun x => x.event_timestamp) e _).mp he
            exact mem_applyDateFilter df q2 e this
          have he1 : e ∈ q1 := applyWorkerFilter_ok_sub db user wf q1 q2 h2 e he2
          have he0 := applySiteFilter_ok_sub (orgSiteIds db user) sf _ q1 h1 e he1
          have hmem := (List.mem_filter.mp he0).2
          have : e.site_id ∈ orgSiteIds db user := by
            simpa [List.elem_iff] using hmem
          exact (mem_orgSiteIds db user e.site_id).mp this
  · intro sid hsf h0 hne hnot
    subst hsf
    have hie : (orgSiteIds db user).isEmpty = false := by
      rw [← Bool.not_eq_true]
      exact fun h => hne (List.isEmpty_iff.mp h)
    have hc : (orgSiteIds db user).contains sid = false := by
      rw [← Bool.not_eq_true]
      simpa [List.elem_iff] using hnot
    simp [list_events, applySiteFilter, hie, intTruthy, h0, hc]
    rw [if_neg hnot]
  · intro wid hsf hwf h0 hne hnot
    subst hsf hwf
    have hie : (orgSiteIds db user).isEmpty = false := by
      rw [← Bool.not_eq_true]
      exact fun h => hne (List.isEmpty_iff.mp h)
    have hfw : db.workers.find? (fun w => w.id == wid
        && w.organization_id == user.organization_id) = none := by
      refine List.find?_eq_none.mpr ?_
      intro w hw
      simp only [Bool.and_eq_true, beq_iff_eq, not_and]
      intro h1 h2
      exact hnot w hw ⟨h1, h2⟩
    simp [list_events, applySiteFilter, applyWorkerFilter, hie, intTruthy, h0, hfw]

/-- The store for the C1 counterexample: the caller's organization 1
owns `siteA` (id 1) and one event there; organization 2 owns `siteB0`,
whose id is 0. -/
def dbC1 : Db := { dbBase with sites := [siteA, siteB0], events := [mkEv 1 "IN" 1000] }

/-- Counterexample to C1 as stated: `site_id = 0` references an entity
(`siteB0`) outside the caller's organization, yet `list_events` does not
fail with an access-denied error — Python's `if site_id:` treats 0 as
absent, so the call succeeds (returning the caller's own events). -/
theorem C1_counterexample :
    (∃ s ∈ dbC1.sites, s.id = 0 ∧ ¬s.organization_id = userA.organization_id)
    ∧ list_events dbC1 userA (some 0) none none = .ok [mkEv 1 "IN" 1000] := by decide

/-- Witness for C1 at concrete inputs: an accepted listing only contains
events at the organization's sites; a nonzero foreign `site_id` filter
is denied; a nonzero unknown `worker_id` filter is denied. -/
theorem C1_tenant_isolation_witness :
    (∃ s ∈ dbC1.sites, s.id = (mkEv 1 "IN" 1000).site_id
      ∧ s.organization_id = userA.organization_id ∧ s.deleted_at = none)
    ∧ list_events dbC1 userA (some 5) none none = .error .siteAccessDenied
    ∧ list_events dbC1 userA none (some 5) none = .error .workerAccessDenied :=
  ⟨(C1_tenant_isolation dbC1 userA none none none).1 [mkEv 1 "IN" 1000]
      (by decide) (mkEv 1 "IN" 1000) (by decide),
   (C1_tenant_isolation dbC1 userA (some 5) none none).2.1 5 rfl
      (by decide) (by decide) (by decide),
   (C1_tenant_isolation dbC1 userA none (some 5) none).2.2 5 rfl rfl
      (by decide) (by decide) (by decide)⟩

/-! ## Rounding lemmas -/

theorem ratFloor_intCast (m : Int) : ratFloor ((m : ℚ)) = m := by
  unfold ratFloor
  rw [Rat.num_intCast, Rat.den_intCast]
  simp [Int.fdiv_one]

theorem pythonRound_intCast (m : Int) : pythonRound ((m : ℚ)) = m := by
  unfold pythonRound
  rw [ratFloor_intCast]
  norm_num

theorem round2_intCast (m : Int) : round2 ((m : ℚ)) = (m : ℚ) := by
  unfold round2
  have h : ((m : ℚ) * 100) = ((m * 100 : Int) : ℚ) := by push_cast; ring
  rw [h, pythonRound_intCast]
  push_cast
  ring

theorem ratFloor_nonneg {x : ℚ} (hx : 0 ≤ x) : 0 ≤ ratFloor x :=
  Int.fdiv_nonneg (Rat.num_nonneg.mpr hx) (Int.natCast_nonneg _)

theorem pythonRound_cases (x : ℚ) :
    pythonRound x = ratFloor x ∨ pythonRound x = ratFloor x + 1 := by
  have hx : pythonRound x = (if x - (ratFloor x : ℚ) < 1/2 then ratFloor x
      else if 1/2 < x - (ratFloor x : ℚ) then ratFloor x + 1
      else if ratFloor x % 2 = 0 then ratFloor x else ratFloor x + 1) := rfl
  rw [hx]
  by_cases h1 : x - (ratFloor x : ℚ) < 1/2
  · rw [if_pos h1]; exact Or.inl rfl
  · rw [if_neg h1]
    by_cases h2 : (1:ℚ)/2 < x - (ratFloor x : ℚ)
    · rw [if_pos h2]; exact Or.inr rfl
    · rw [if_neg h2]
      by_cases h3 : ratFloor x % 2 = 0
      · rw [if_pos h3]; exact Or.inl rfl
      · rw [if_neg h3]; exact Or.inr rfl

theorem pythonRound_nonneg {x : ℚ} (hx : 0 ≤ x) : 0 ≤ pythonRound x := by
  rcases pythonRound_cases x with h | h <;> rw [h] <;>
    have := ratFloor_nonneg hx <;> omega

theorem round2_nonneg {x : ℚ} (hx : 0 ≤ x) : 0 ≤ round2 x := by
  unfold round2
  have h100 : (0:ℚ) ≤ x * 100 := by positivity
  have := pythonRound_nonneg h100
  have hc : (0:ℚ) ≤ ((pythonRound (x * 100) : Int) : ℚ) := by exact_mod_cast this
  positivity

/-! ## Claim C7 — daily-summary shift pairing -/

/-- The stores used by the C7/C8 counterexamples. `dbC7` holds two full
IN/OUT cycles of worker 1 on UTC day 0: IN 08:00, OUT 12:00, IN 13:00,
OUT 17:00. -/
def dbC7 : Db := { dbBase with events := [mkEv 1 "IN" 28800, mkEv 2 "OUT" 43200,
  mkEv 3 "IN" 46800, mkEv 4 "OUT" 61200] }

/-- Counterexample to C7 as stated: with two IN/OUT cycles in the day,
the daily summary pairs the first IN (WAT 09:00:00 = 32400 s) with the
chronologically FIRST `OUT` (WAT 13:00:00 = 46800 s), not the last OUT
of the day (WAT 18:00:00 = 64800 s) as the claim asserts; hours worked
is computed from that first OUT. -/
theorem C7_counterexample :
    (get_daily_summary dbC7 userA 0 none).toOption.map
        (fun r => r.workers_present.map (fun x => (x.check_in_time, x.check_out_time)))
      = some [(some 32400, some 46800)]
    ∧ timeOfDay (to_wat 61200) = 64800 ∧ (46800 : Int) ≠ 64800 := by decide

/-- C7 (amended): for a worker with at least one IN event in the day,
the daily summary forms exactly one shift from the chronologically first
IN paired with the chronologically FIRST OUT of the day (not the last),
and reports hours worked = first OUT − first IN (as a rounded positive
value, null when non-positive or when no OUT exists).
`get_daily_summary` applies `summarizeWorkerDay` to each worker's
time-sorted events of the day. -/
theorem C7_daily_pairing (db : Db) (w : Worker) (evs : List ClockEvent) (cin : ClockEvent)
    (hin : evs.find? (fun e => e.event_type == "IN") = some cin) :
    ∃ row contrib, summarizeWorkerDay db w evs = some (row, contrib)
      ∧ row.check_in_time = some (timeOfDay (to_wat cin.event_timestamp))
      ∧ (evs.find? (fun e => e.event_type == "OUT") = none
          → contrib = 0 ∧ row.hours_worked = none ∧ row.check_out_time = none)
      ∧ (∀ cout, evs.find? (fun e => e.event_type == "OUT") = some cout
          → contrib = ((cout.event_timestamp - cin.event_timestamp : Int) : ℚ) / 3600
            ∧ row.hours_worked = (if 0 < contrib then some (round2 contrib) else none)
            ∧ row.check_out_time = some (timeOfDay (to_wat cout.event_timestamp))) := by
  unfold summarizeWorkerDay
  rw [hin]
  refine ⟨_, _, rfl, rfl, ?_, ?_⟩
  · intro hout
    rw [hout]
    norm_num
  · intro cout hout
    rw [hout]
    refine ⟨rfl, ?_, rfl⟩
    simp only [gt_iff_lt]

/-- The four events of `dbC7`'s day, in time order. -/
def evs4 : List ClockEvent :=
  [mkEv 1 "IN" 28800, mkEv 2 "OUT" 43200, mkEv 3 "IN" 46800, mkEv 4 "OUT" 61200]

/-- Witness for C7 at concrete inputs: on `evs4` the pairing uses the
first IN and first OUT. -/
theorem C7_daily_pairing_witness :
    ∃ row contrib, summarizeWorkerDay dbC7 workerA evs4 = some (row, contrib)
      ∧ row.check_in_time = some (timeOfDay (to_wat (mkEv 1 "IN" 28800).event_timestamp))
      ∧ (evs4.find? (fun e => e.event_type == "OUT") = none
          → contrib = 0 ∧ row.hours_worked = none ∧ row.check_out_time = none)
      ∧ (∀ cout, evs4.find? (fun e => e.event_type == "OUT") = some cout
          → contrib = ((cout.event_timestamp
              - (mkEv 1 "IN" 28800).event_timestamp : Int) : ℚ) / 3600
            ∧ row.hours_worked = (if 0 < contrib then some (round2 contrib) else none)
            ∧ row.check_out_time = some (timeOfDay (to_wat cout.event_timestamp))) :=
  C7_daily_pairing dbC7 workerA evs4 (mkEv 1 "IN" 28800) (by decide)

/-! ## Claim C8 — shift ordering and non-negative reported hours -/

/-- The store for the C8 counterexample: worker 1 has an OUT at UTC
06:00 followed by an IN at UTC 08:00 on the same WAT day. -/
def dbC8 : Db := { dbBase with events := [mkEv 1 "OUT" 21600, mkEv 2 "IN" 28800] }

/-- Counterexample to C8 as stated: the CSV export pairs a check-in at
WAT 09:00:00 (32400 s) with a check-out at WAT 07:00:00 (25200 s) —
check-out < check-in, violating the claimed ordering invariant — and
reports per-shift hours worked of −2 (negative, not null). -/
theorem C8_counterexample :
    (export_attendance_csv dbC8 userA 0 0 none).toOption.map
        (fun rs => rs.map (fun r => (r.check_in, r.check_out)))
      = some [(some 32400, some 25200)]
    ∧ (export_attendance_csv dbC8 userA 0 0 none).toOption.map
        (fun rs => rs.map (fun r => r.hours_worked))
      = some [some (-2)]
    ∧ ((-2 : ℚ) < 0) := by
  refine ⟨by decide, ?_, by norm_num⟩
  have h1 : (export_attendance_csv dbC8 userA 0 0 none).toOption.map
      (fun rs => rs.map (fun r => r.hours_worked))
      = some [some (round2 (((25200 - 32400 : Int) : ℚ) / 3600))] := rfl
  have h2 : round2 (((25200 - 32400 : Int) : ℚ) / 3600) = -2 := by
    have ha : (((25200 - 32400 : Int) : ℚ) / 3600) = ((-2 : Int) : ℚ) := by norm_num
    rw [ha, round2_intCast]
    norm_num
  rw [h1, h2]

/-- C8 (amended): the pairing does not enforce check-out ≥ check-in (see
the counterexample, where the CSV export reports negative hours).  What
does hold: a daily-summary row's reported hours are null or
non-negative (a non-positive computed duration is reported as null,
though the raw — possibly negative — duration still enters the day's
total); a worker-day with no OUT event gets null hours (not zero); and a
CSV record lacking a check-out gets null hours (not zero). -/
theorem C8_shift_ordering (db : Db) (w : Worker) (evs : List ClockEvent) (r : CsvRecord) :
    (∀ row contrib, summarizeWorkerDay db w evs = some (row, contrib) →
      row.hours_worked = none ∨ ∃ h, row.hours_worked = some h ∧ 0 ≤ h)
    ∧ (∀ row contrib, evs.find? (fun e => e.event_type == "OUT") = none →
        summarizeWorkerDay db w evs = some (row, contrib) → row.hours_worked = none)
    ∧ (r.check_out = none → (csvFinalize r).hours_worked = none) := by
  refine ⟨?_, ?_, ?_⟩
  · intro row contrib h
    unfold summarizeWorkerDay at h
    cases hin : evs.find? (fun e => e.event_type == "IN") with
    | none => rw [hin] at h; cases h
    | some cin =>
      rw [hin] at h
      simp only [Option.some.injEq, Prod.mk.injEq] at h
      obtain ⟨hrow, -⟩ := h
      rw [← hrow]
      split
      next hpos =>
        exact Or.inr ⟨_, rfl, round2_nonneg (le_of_lt hpos)⟩
      next => exact Or.inl rfl
  · intro row contrib hout h
    unfold summarizeWorkerDay at h
    cases hin : evs.find? (fun e => e.event_type == "IN") with
    | none => rw [hin] at h; cases h
    | some cin =>
      rw [hin, hout] at h
      simp only [Option.some.injEq, Prod.mk.injEq] at h
      obtain ⟨hrow, -⟩ := h
      rw [← hrow]
      norm_num
  · intro hco
    unfold csvFinalize
    rw [hco]
    cases r.check_in <;> rfl

/-- A one-IN, no-OUT worker day used by the C8 witness. -/
def evsIn : List ClockEvent := [mkEv 1 "IN" 28800]

/-- The daily-summary row produced for `evsIn`. -/
def rowIn : WorkerAttendanceStatus :=
  { worker_id := 1, name := "W", check_in_time := some 32400,
    check_out_time := none, hours_worked := none, status := "late" }

/-- A CSV record with no check-out. -/
def rNoOut : CsvRecord :=
  { rdate := 0, worker_id := 1, check_in := some 32400, check_out := none,
    hours_worked := none, status := "", accuracy := none, distance_m := none }

/-- Witness for C8 at concrete inputs: a day with an IN and no OUT
yields null hours in the daily summary, and a CSV record without a
check-out finalizes to null hours. -/
theorem C8_shift_ordering_witness :
    (rowIn.hours_worked = none ∨ ∃ h, rowIn.hours_worked = some h ∧ 0 ≤ h)
    ∧ rowIn.hours_worked = none
    ∧ (csvFinalize rNoOut).hours_worked = none :=
  ⟨(C8_shift_ordering dbBase workerA evsIn rNoOut).1 rowIn 0 (by decide),
   (C8_shift_ordering dbBase workerA evsIn rNoOut).2.1 rowIn 0 (by decide) (by decide),
   (C8_shift_ordering dbBase workerA evsIn rNoOut).2.2 rfl⟩

/-! ## Claim C5 — bulk-sync idempotence -/

theorem hasDuplicate_iff (db : Db) (e : ClockEventCreate) :
    hasDuplicate db e = true ↔ reqTriple e ∈ db.events.map evTriple := by
  unfold hasDuplicate reqTriple evTriple
  simp [List.any_eq_true, List.mem_map, Prod.mk.injEq, and_assoc]

theorem bulkStep_skip (dist : GeoDist) (user : User) (acc : Db × List ClockEvent)
    (e : ClockEventCreate) (h : hasDuplicate acc.1 e = true) :
    bulkStep dist user acc e = acc := by
  unfold bulkStep
  simp [h]

theorem bulkStep_accept (dist : GeoDist) (user : User) (db : Db)
    (cs : List ClockEvent) (e : ClockEventCreate) (site : Site) (w : Worker)
    (hd : hasDuplicate db e = false)
    (hs : findSiteOrg db.sites user e.site_id = some site)
    (hw : findWorkerOrg db.workers user e.worker_id = some w) :
    ∃ ev db', bulkStep dist user (db, cs) e = (db', cs ++ [ev])
      ∧ db'.events = db.events ++ [ev] ∧ db'.sites = db.sites
      ∧ db'.workers = db.workers ∧ evTriple ev = reqTriple e := by
  unfold bulkStep
  simp only [hd, Bool.false_eq_true, if_false, hs, hw]
  refine ⟨_, _, rfl, ?_, ?_, ?_, rfl⟩
  · show (getOrCreateDevice db user e.device_id e.site_id).2.events ++ _ = _
    rw [(getOrCreateDevice_pres db user e.device_id e.site_id).1]
  · show (getOrCreateDevice db user e.device_id e.site_id).2.sites = _
    rw [(getOrCreateDevice_pres db user e.device_id e.site_id).2.1]
  · show (getOrCreateDevice db user e.device_id e.site_id).2.workers = _
    rw [(getOrCreateDevice_pres db user e.device_id e.site_id).2.2]

theorem bulk_accepts (dist : GeoDist) (user : User) :
    ∀ (batch : List ClockEventCreate) (db : Db) (cs : List ClockEvent),
      (batch.map reqTriple).Nodup
      → (∀ e ∈ batch, reqTriple e ∉ db.events.map evTriple)
      → (∀ e ∈ batch, (findSiteOrg db.sites user e.site_id).isSome = true)
      → (∀ e ∈ batch, (findWorkerOrg db.workers user e.worker_id).isSome = true)
      → (batch.foldl (bulkStep dist user) (db, cs)).1.events.map evTriple
            = db.events.map evTriple ++ batch.map reqTriple
        ∧ (batch.foldl (bulkStep dist user) (db, cs)).2.length = cs.length + batch.length
        ∧ (batch.foldl (bulkStep dist user) (db, cs)).1.sites = db.sites
        ∧ (batch.foldl (bulkStep dist user) (db, cs)).1.workers = db.workers := by
  intro batch
  induction batch with
  | nil =>
    intro db cs _ _ _ _
    simp
  | cons e rest ih =>
    intro db cs hnd hnin hsites hworkers
    have hd : hasDuplicate db e = false := by
      rw [← Bool.not_eq_true, hasDuplicate_iff]
      exact hnin e (List.mem_cons_self e rest)
    obtain ⟨site, hsite⟩ :=
      Option.isSome_iff_exists.mp (hsites e (List.mem_cons_self e rest))
    obtain ⟨w, hw⟩ :=
      Option.isSome_iff_exists.mp (hworkers e (List.mem_cons_self e rest))
    obtain ⟨ev, db', hstep, hev, hsi, hwo, htr⟩ :=
      bulkStep_accept dist user db cs e site w hd hsite hw
    rw [List.foldl_cons, hstep]
    rw [List.map_cons, List.nodup_cons] at hnd
    have hnin' : ∀ x ∈ rest, reqTriple x ∉ db'.events.map evTriple := by
      intro x hx
      rw [hev, List.map_append]
      simp only [List.mem_append, List.map_cons, List.map_nil,
        List.mem_singleton, not_or]
      refine ⟨hnin x (List.mem_cons_of_mem e hx), ?_⟩
      rw [htr]
      intro hcontr
      exact hnd.1 (hcontr ▸ List.mem_map_of_mem reqTriple hx)
    have hsites' : ∀ x ∈ rest, (findSiteOrg db'.sites user x.site_id).isSome = true := by
      intro x hx
      rw [hsi]
      exact hsites x (List.mem_cons_of_mem e hx)
    have hworkers' : ∀ x ∈ rest,
        (findWorkerOrg db'.workers user x.worker_id).isSome = true := by
      intro x hx
      rw [hwo]
      exact hworkers x (List.mem_cons_of_mem e hx)
    obtain ⟨ha, hb, hc2, hd2⟩ := ih db' (cs ++ [ev]) hnd.2 hnin' hsites' hworkers'
    refine ⟨?_, ?_, ?_, ?_⟩
    · rw [ha, hev, List.map_append]
      simp [htr]
    · rw [hb]
      simp
      omega
    · rw [hc2, hsi]
    · rw [hd2, hwo]

theorem bulk_skips (dist : GeoDist) (user : User) :
    ∀ (batch : List ClockEventCreate) (db : Db) (cs : List ClockEvent),
      (∀ e ∈ batch, hasDuplicate db e = true)
      → batch.foldl (bulkStep dist user) (db, cs) = (db, cs) := by
  intro batch
  induction batch with
  | nil => intro db cs _; rfl
  | cons e rest ih =>
    intro db cs h
    rw [List.foldl_cons, bulkStep_skip dist user (db, cs) e (h e (List.mem_cons_self e rest))]
    exact ih db cs (fun x hx => h x (List.mem_cons_of_mem e hx))

/-- C5: against an initially empty event store, a batch of pairwise
distinct `(worker_id, site_id, event_timestamp)` triples whose sites and
workers all pass the acting organization's ownership lookups is fully
accepted on the first call (N created, N stored), and an identical
second call accepts 0 new events, skipping every item as a duplicate and
leaving the store exactly as the first call left it — N events, not 2N.
The bulk handler is total: no per-item duplicate or ownership failure
raises an error for the batch as a whole. -/
theorem C5_bulk_idempotent (dist : GeoDist) (db : Db) (user : User)
    (batch : List ClockEventCreate)
    (hempty : db.events = [])
    (hnd : (batch.map reqTriple).Nodup)
    (hs : ∀ e ∈ batch, (findSiteOrg db.sites user e.site_id).isSome = true)
    (hw : ∀ e ∈ batch, (findWorkerOrg db.workers user e.worker_id).isSome = true) :
    (create_events_bulk dist db user batch).2.length = batch.length
    ∧ (create_events_bulk dist db user batch).1.events.length = batch.length
    ∧ create_events_bulk dist (create_events_bulk dist db user batch).1 user batch
        = ((create_events_bulk dist db user batch).1, []) := by
  have hnin : ∀ e ∈ batch, reqTriple e ∉ db.events.map evTriple := by
    intro e he
    rw [hempty]
    simp
  obtain ⟨ha, hb, -, -⟩ := bulk_accepts dist user batch db [] hnd hnin hs hw
  have htr : (create_events_bulk dist db user batch).1.events.map evTriple
      = batch.map reqTriple := by
    unfold create_events_bulk
    rw [ha, hempty]
    simp
  refine ⟨by simpa using hb, ?_, ?_⟩
  · have hlen := congrArg List.length htr
    simpa using hlen
  · apply bulk_skips
    intro e he
    rw [hasDuplicate_iff, htr]
    exact List.mem_map_of_mem reqTriple he

/-- A two-event batch with distinct triples for worker 1 at site 1. -/
def batch2 : List ClockEventCreate :=
  [reqA, { reqA with event_type := "OUT", event_timestamp := 2000 }]

/-- Witness for C5 at concrete inputs: submitting `batch2` twice stores
2 events, the second call accepting none. -/
theorem C5_bulk_idempotent_witness :
    (create_events_bulk distZero dbBase userA batch2).2.length = 2
    ∧ (create_events_bulk distZero dbBase userA batch2).1.events.length = 2
    ∧ create_events_bulk distZero (create_events_bulk distZero dbBase userA batch2).1
        userA batch2
      = ((create_events_bulk distZero dbBase userA batch2).1, []) :=
  C5_bulk_idempotent distZero dbBase userA batch2 rfl (by decide) (by decide) (by decide)

end Clockout

